import Mathlib

/-!
Shallow embedding of `src/observable.py`: an Observer-pattern data
descriptor (`Observable`) holding per-host weak-keyed maps `value` and
`observers`, with operations `get_value`, `__set__` (here `Observable.set`),
`register`, `unregister`, `get_key_and_func`, `get_observers_dict` and
`observer_methods`.

Hosts, owner objects, function objects and error identities are modelled
by natural-number identifiers.  Python dictionaries are modelled as
association lists with unique keys; Python sets as duplicate-free lists
(the insertion order fixes the iteration order, which Python leaves
unspecified for sets).  Weak-reference reclamation is not modelled: no
claim below depends on garbage collection.
-/

abbrev HostId := Nat
abbrev FuncId := Nat
abbrev ObjId := Nat
abbrev ErrId := Nat

/-- Python runtime values relevant to the observable module: `None`,
integers, plain (non-callable) instance objects, function objects, and
bound-method wrappers (a `__self__` owner paired with a `__func__`
function). -/
inductive PyVal where
  | none
  | int (n : Int)
  | obj (o : ObjId)
  | func (f : FuncId)
  | boundMethod (s : ObjId) (f : FuncId)
  deriving DecidableEq, Repr

/-- Python `callable(x)`: function objects and bound methods are callable;
`None`, integers and the plain instance objects modelled here are not. -/
def callable : PyVal → Bool
  | PyVal.func _ => true
  | PyVal.boundMethod _ _ => true
  | _ => false

/-- Association-list lookup, modelling Python `dict.__getitem__` /
`dict.get`. -/
def alookup {α β : Type} [DecidableEq α] : List (α × β) → α → Option β
  | [], _ => Option.none
  | (k, v) :: rest, a => if k = a then some v else alookup rest a

/-- Association-list update, modelling Python `dict.__setitem__`: replaces
the binding for an existing key in place, otherwise appends a new binding
(Python dicts are insertion ordered). -/
def aset {α β : Type} [DecidableEq α] : List (α × β) → α → β → List (α × β)
  | [], a, b => [(a, b)]
  | (k, v) :: rest, a, b => if k = a then (a, b) :: rest else (k, v) :: aset rest a b

/-- Association-list deletion, modelling Python `dict.__delitem__` (keys
are unique, so removing the first binding suffices). -/
def aerase {α β : Type} [DecidableEq α] : List (α × β) → α → List (α × β)
  | [], _ => []
  | (k, v) :: rest, a => if k = a then rest else (k, v) :: aerase rest a

/-- Python `set.add` on the duplicate-free list model: a no-op when the
element is already present, otherwise appends. -/
def setAdd (s : List PyVal) (x : PyVal) : List PyVal :=
  if x ∈ s then s else s ++ [x]

/-- The key of an observer entry, i.e. a key of the inner
`WeakKeyDictionary` built by `register`: either the sentinel class
`Observable` itself (used for standalone functions, since `None` is not a
valid weak key) or the `__self__` owner object of a bound method. -/
inductive ObsKey where
  | observableClass
  | objKey (o : ObjId)
  deriving DecidableEq, Repr

/-- The inner observer dictionary of one host: observer key to the set of
registered function objects. -/
abbrev ObsDict := List (ObsKey × List PyVal)

/-- The `Observable` descriptor state: the `always_notify` flag (`notify`),
the `include_previous` flag (`previous`), the host-keyed `observers` map
and the host-keyed `value` map, mirroring
`__slots__ = ('previous', 'notify', 'observers', 'value')`. -/
structure Observable where
  notify : Bool
  previous : Bool
  observers : List (HostId × ObsDict)
  value : List (HostId × PyVal)
  deriving DecidableEq, Repr

/-- `Observable.__init__(always_notify, include_previous)`: both weak-keyed
maps start empty. -/
def Observable.init (always_notify include_previous : Bool) : Observable :=
  ⟨always_notify, include_previous, [], []⟩

/-- `Observable.get_value(obj)`: `self.value.get(obj, None)`. -/
def Observable.get_value (ob : Observable) (h : HostId) : PyVal :=
  (alookup ob.value h).getD PyVal.none

/-- `Observable.get_observers_dict(obj)`: returns the inner dict for `obj`,
creating (and storing) an empty one when absent — note this mutates
`self.observers` in the absent case. -/
def Observable.get_observers_dict (ob : Observable) (h : HostId) :
    ObsDict × Observable :=
  match alookup ob.observers h with
  | some d => (d, ob)
  | Option.none => ([], { ob with observers := aset ob.observers h [] })

/-- `Observable.get_key_and_func(observer)`: a bound method decomposes into
its `__self__` owner (the key) and its underlying `__func__` function; any
other observer keeps the sentinel key `Observable` and is stored as
itself. -/
def Observable.get_key_and_func (observer : PyVal) : ObsKey × PyVal :=
  match observer with
  | PyVal.boundMethod s f => (ObsKey.objKey s, PyVal.func f)
  | v => (ObsKey.observableClass, v)

/-- The body of `register` past the callable check: `observer_dict[key].add(func)`
with a `KeyError` fallback creating `set([func])`. -/
def addObserverEntry (d : ObsDict) (key : ObsKey) (func : PyVal) : ObsDict :=
  match alookup d key with
  | some funcs => aset d key (setAdd funcs func)
  | Option.none => aset d key [func]

/-- The registration error raised by `register` (`ValueError`), together
with the `AttributeError` a caller hits when accessing a missing member to
register it. -/
inductive RegError where
  | valueError (msg : String)
  | attributeError (name : String)
  deriving DecidableEq, Repr

/-- `Observable.register(obj, observer)`: raises `ValueError` if the
observer is not callable, otherwise files the observer's
`(key, func)` decomposition into the host's inner dict. -/
def Observable.register (ob : Observable) (h : HostId) (observer : PyVal) :
    Except RegError Observable :=
  if callable observer = false then
    Except.error (RegError.valueError "observer is not callable")
  else
    let p := ob.get_observers_dict h
    let kf := Observable.get_key_and_func observer
    Except.ok { p.2 with observers := aset p.2.observers h (addObserverEntry p.1 kf.1 kf.2) }

/-- `Observable.unregister(obj, observer)`: discards `func` from the key's
set when the key is present (a `KeyError` is passed over), deleting the
key when its set empties.  Never raises. -/
def Observable.unregister (ob : Observable) (h : HostId) (observer : PyVal) :
    Observable :=
  let p := ob.get_observers_dict h
  let kf := Observable.get_key_and_func observer
  match alookup p.1 kf.1 with
  | Option.none => p.2
  | some funcs =>
    let funcs' := funcs.filter (fun x => decide (x ≠ kf.2))
    let d' := if funcs' = [] then aerase p.1 kf.1 else aset p.1 kf.1 funcs'
    { p.2 with observers := aset p.2.observers h d' }

/-- Resolution of one stored observer entry at notification time: a
standalone entry (key `Observable`) is yielded as stored; an owner-keyed
entry is re-bound via `func.__get__(key, type(key))`, producing a fresh
bound method of the *stored* function object.  (The catch-all branch is
unreachable from the API: owner keys only ever store function objects.) -/
def resolveEntry (key : ObsKey) (func : PyVal) : PyVal :=
  match key with
  | ObsKey.observableClass => func
  | ObsKey.objKey o =>
    match func with
    | PyVal.func f => PyVal.boundMethod o f
    | v => v

/-- `Observable.observer_methods(obj)` as a function of the host's inner
dict: yields the resolved callable for every stored entry, in dict then
set iteration order. -/
def observer_methods (d : ObsDict) : List PyVal :=
  d.flatMap (fun kv => kv.2.map (resolveEntry kv.1))

/-- What resolution yields for a given registered observer. -/
def resolveObserver (observer : PyVal) : PyVal :=
  resolveEntry (Observable.get_key_and_func observer).1
    (Observable.get_key_and_func observer).2

/-- An error raised while invoking an observer: either the observer's own
exception (identified by an `ErrId`) or the `TypeError` of calling a
non-callable (unreachable from the API). -/
inductive PyErr where
  | user (e : ErrId)
  | typeErr
  deriving DecidableEq, Repr

/-- The behaviour environment for function objects: given its argument
list, a function either returns normally (`Option.none`) or raises. -/
abbrev FuncEnv := FuncId → List PyVal → Option PyErr

/-- Invoking one resolved observer `method(*value)`: a bound method calls
its function with the owner prepended as `self`. -/
def callMethod (env : FuncEnv) (m : PyVal) (args : List PyVal) : Option PyErr :=
  match m with
  | PyVal.func f => env f args
  | PyVal.boundMethod o f => env f (PyVal.obj o :: args)
  | _ => some PyErr.typeErr

/-- The notification loop `for method in ...: method(*value)`: returns the
invocation log (each invoked method with the argument list it received)
and the first error, which aborts the loop and propagates unwrapped. -/
def runNotify (env : FuncEnv) (args : List PyVal) :
    List PyVal → List (PyVal × List PyVal) × Option PyErr
  | [] => ([], Option.none)
  | m :: rest =>
    match callMethod env m args with
    | Option.none =>
      let r := runNotify env args rest
      ((m, args) :: r.1, r.2)
    | some e => ([(m, args)], some e)

/-- `Observable.__set__(obj, value)`: reads the old value, stores the new
one, and when `always_notify` is set or the value changed, builds the
argument list (appending the old value under `include_previous`) and runs
the notification loop over the host's resolved observers.  Returns the
final descriptor state, the invocation log, and the propagated observer
error if one was raised. -/
def Observable.set (env : FuncEnv) (ob : Observable) (h : HostId) (v : PyVal) :
    Observable × List (PyVal × List PyVal) × Option PyErr :=
  let old_value := ob.get_value h
  let ob1 := { ob with value := aset ob.value h v }
  if ob1.notify = true ∨ v ≠ old_value then
    let args := if ob1.previous = true then [v, old_value] else [v]
    let p := ob1.get_observers_dict h
    let r := runNotify env args (observer_methods p.1)
    (p.2, r.1, r.2)
  else (ob1, [], Option.none)

/-- The attribute table of the modelled instance objects: maps an
`(owner, attribute name)` pair to the stored class attribute. -/
abbrev Attrs := List ((ObjId × String) × PyVal)

/-- Python attribute access `target.name` on a modelled instance object:
a function-valued class attribute binds through the descriptor protocol
into a fresh bound-method wrapper; other attribute values are returned as
stored; missing attributes (and attributes of non-instance values, which
this model does not equip with attributes) yield `Option.none`, i.e. an
`AttributeError` at the access site. -/
def getattrVal (attrs : Attrs) (target : PyVal) (name : String) : Option PyVal :=
  match target with
  | PyVal.obj o =>
    match alookup attrs (o, name) with
    | some (PyVal.func f) => some (PyVal.boundMethod o f)
    | some v => some v
    | Option.none => Option.none
  | _ => Option.none

/-- Caller-side registration of a target with an optional selector, per the
module docstring's usage: with no selector the target itself is the
observer; with a selector the member named by it is freshly accessed on
the target (raising `AttributeError` when absent) and the resulting value
is passed to `register`. -/
def Observable.registerSel (ob : Observable) (h : HostId) (target : PyVal)
    (selector : Option String) (attrs : Attrs) : Except RegError Observable :=
  match selector with
  | Option.none => ob.register h target
  | some name =>
    match getattrVal attrs target name with
    | Option.none => Except.error (RegError.attributeError name)
    | some member => ob.register h member

/-- `target` has a member named `name` whose access yields a callable. -/
def hasCallableMember (attrs : Attrs) (target : PyVal) (name : String) : Bool :=
  match getattrVal attrs target name with
  | some v => callable v
  | Option.none => false

/-- The host's inner observer dict as read from the state (empty when the
host has no entry). -/
def Observable.obsEntries (ob : Observable) (h : HostId) : ObsDict :=
  (alookup ob.observers h).getD []

/-- The observer pair denoted by `observer` is currently registered for
host `h`. -/
def registeredPair (ob : Observable) (h : HostId) (observer : PyVal) : Bool :=
  match alookup (ob.obsEntries h) (Observable.get_key_and_func observer).1 with
  | some funcs => decide ((Observable.get_key_and_func observer).2 ∈ funcs)
  | Option.none => false

/-- States reachable through the API never hold an empty inner observer
set (`unregister` deletes a key as soon as its set empties). -/
def wellFormed (ob : Observable) : Bool :=
  ob.observers.all (fun hv => hv.2.all (fun kv => decide (kv.2 ≠ [])))

/-- The state produced by a successful `register`, or the unchanged state
when `register` raises (it raises before touching any state). -/
def regOk (ob : Observable) (h : HostId) (observer : PyVal) : Observable :=
  match ob.register h observer with
  | Except.ok st => st
  | Except.error _ => ob

/-- Registering the same observer `n` times in a row. -/
def registerNTimes (ob : Observable) (h : HostId) (observer : PyVal) :
    Nat → Observable
  | 0 => ob
  | n + 1 => regOk (registerNTimes ob h observer n) h observer

/-- A `register` result has failed. -/
def regFailed {α : Type} : Except RegError α → Bool
  | Except.ok _ => false
  | Except.error _ => true

/-! ### Association-list lemmas -/

theorem alookup_aset_self {α β : Type} [DecidableEq α] (l : List (α × β)) (k : α) (v : β) :
    alookup (aset l k v) k = some v := by
  induction l with
  | nil => simp [aset, alookup]
  | cons p rest ih =>
    obtain ⟨ka, va⟩ := p
    by_cases hk : ka = k
    · subst hk; simp [aset, alookup]
    · simp [aset, alookup, hk, ih]

theorem alookup_aset_ne {α β : Type} [DecidableEq α] (l : List (α × β)) (k k' : α) (v : β)
    (hne : k ≠ k') : alookup (aset l k v) k' = alookup l k' := by
  induction l with
  | nil => simp [aset, alookup, hne]
  | cons p rest ih =>
    obtain ⟨ka, va⟩ := p
    by_cases hk : ka = k
    · subst hk; simp [aset, alookup, hne]
    · simp [aset, alookup, hk, ih]

theorem aset_eq_self {α β : Type} [DecidableEq α] (l : List (α × β)) (k : α) (v : β)
    (hl : alookup l k = some v) : aset l k v = l := by
  induction l with
  | nil => simp [alookup] at hl
  | cons p rest ih =>
    obtain ⟨ka, va⟩ := p
    by_cases hk : ka = k
    · subst hk
      simp [alookup] at hl
      simp [aset, hl]
    · simp [alookup, hk] at hl
      simp [aset, hk, ih hl]

theorem alookup_mem {α β : Type} [DecidableEq α] (l : List (α × β)) (k : α) (v : β)
    (hl : alookup l k = some v) : (k, v) ∈ l := by
  induction l with
  | nil => simp [alookup] at hl
  | cons p rest ih =>
    obtain ⟨ka, va⟩ := p
    by_cases hk : ka = k
    · subst hk
      simp [alookup] at hl
      simp [hl]
    · simp [alookup, hk] at hl
      simp [ih hl]

theorem filter_ne_eq_self (l : List PyVal) (x : PyVal) (hx : x ∉ l) :
    l.filter (fun y => decide (y ≠ x)) = l := by
  apply List.filter_eq_self.mpr
  intro a ha
  simp only [decide_eq_true_eq]
  exact fun hax => hx (hax ▸ ha)

/-! ### `setAdd` lemmas -/

theorem setAdd_mem (s : List PyVal) (x : PyVal) (hx : x ∈ s) : setAdd s x = s := by
  simp [setAdd, hx]

theorem setAdd_not_mem (s : List PyVal) (x : PyVal) (hx : x ∉ s) :
    setAdd s x = s ++ [x] := by
  simp [setAdd, hx]

theorem mem_setAdd_self (s : List PyVal) (x : PyVal) : x ∈ setAdd s x := by
  by_cases hx : x ∈ s
  · simp [setAdd, hx]
  · simp [setAdd, hx]

/-! ### `get_observers_dict` lemmas -/

theorem god_fst (ob : Observable) (h : HostId) :
    (ob.get_observers_dict h).1 = ob.obsEntries h := by
  unfold Observable.get_observers_dict Observable.obsEntries
  cases halo : alookup ob.observers h <;> simp [halo]

theorem god_snd_value (ob : Observable) (h : HostId) :
    (ob.get_observers_dict h).2.value = ob.value := by
  unfold Observable.get_observers_dict
  cases halo : alookup ob.observers h <;> simp

theorem god_snd_notify (ob : Observable) (h : HostId) :
    (ob.get_observers_dict h).2.notify = ob.notify := by
  unfold Observable.get_observers_dict
  cases halo : alookup ob.observers h <;> simp

theorem god_snd_previous (ob : Observable) (h : HostId) :
    (ob.get_observers_dict h).2.previous = ob.previous := by
  unfold Observable.get_observers_dict
  cases halo : alookup ob.observers h <;> simp

theorem god_snd_obsEntries (ob : Observable) (h h' : HostId) :
    (ob.get_observers_dict h).2.obsEntries h' = ob.obsEntries h' := by
  unfold Observable.get_observers_dict Observable.obsEntries
  cases halo : alookup ob.observers h with
  | some d => simp
  | none =>
    by_cases hh : h' = h
    · subst hh; simp [halo, alookup_aset_self]
    · simp [alookup_aset_ne _ _ _ _ (fun he => hh he.symm)]

/-! ### `runNotify` lemmas -/

theorem runNotify_all_ok (env : FuncEnv) (args : List PyVal) (ms : List PyVal)
    (hok : ∀ m ∈ ms, callMethod env m args = Option.none) :
    runNotify env args ms = (ms.map (fun m => (m, args)), Option.none) := by
  induction ms with
  | nil => rfl
  | cons m rest ih =>
    have hm : callMethod env m args = Option.none := hok m (by simp)
    have hrest : ∀ m' ∈ rest, callMethod env m' args = Option.none :=
      fun m' hm' => hok m' (by simp [hm'])
    simp [runNotify, hm, ih hrest]

theorem runNotify_fail (env : FuncEnv) (args : List PyVal) (pre : List PyVal)
    (m : PyVal) (post : List PyVal) (e : PyErr)
    (hpre : ∀ m' ∈ pre, callMethod env m' args = Option.none)
    (hm : callMethod env m args = some e) :
    runNotify env args (pre ++ m :: post) =
      (pre.map (fun x => (x, args)) ++ [(m, args)], some e) := by
  induction pre with
  | nil => simp [runNotify, hm]
  | cons a rest ih =>
    have ha : callMethod env a args = Option.none := hpre a (by simp)
    have hrest : ∀ m' ∈ rest, callMethod env m' args = Option.none :=
      fun m' hm' => hpre m' (by simp [hm'])
    simp [runNotify, ha, ih hrest]

theorem runNotify_mem_args (env : FuncEnv) (args : List PyVal) (ms : List PyVal)
    (m : PyVal) (a : List PyVal)
    (hmem : (m, a) ∈ (runNotify env args ms).1) : a = args := by
  induction ms with
  | nil => simp [runNotify] at hmem
  | cons x rest ih =>
    unfold runNotify at hmem
    cases hc : callMethod env x args with
    | none =>
      rw [hc] at hmem
      simp only [List.mem_cons, Prod.mk.injEq] at hmem
      rcases hmem with ⟨_, ha⟩ | hmem
      · exact ha
      · exact ih hmem
    | some e =>
      rw [hc] at hmem
      simp only [List.mem_singleton, Prod.mk.injEq] at hmem
      exact hmem.2

theorem runNotify_mem_method (env : FuncEnv) (args : List PyVal) (ms : List PyVal)
    (m : PyVal) (a : List PyVal)
    (hmem : (m, a) ∈ (runNotify env args ms).1) : m ∈ ms := by
  induction ms with
  | nil => simp [runNotify] at hmem
  | cons x rest ih =>
    unfold runNotify at hmem
    cases hc : callMethod env x args with
    | none =>
      rw [hc] at hmem
      simp only [List.mem_cons, Prod.mk.injEq] at hmem
      rcases hmem with ⟨hx, _⟩ | hmem
      · simp [hx]
      · simp [ih hmem]
    | some e =>
      rw [hc] at hmem
      simp only [List.mem_singleton, Prod.mk.injEq] at hmem
      simp [hmem.1]

/-! ### `Observable.set` lemmas -/

theorem set_value (ob : Observable) (env : FuncEnv) (h : HostId) (v : PyVal) :
    ((ob.set env h v).1).value = aset ob.value h v := by
  simp only [Observable.set]
  split
  · simp [god_snd_value]
  · rfl

theorem set_get_value (ob : Observable) (env : FuncEnv) (h : HostId) (v : PyVal) :
    ((ob.set env h v).1).get_value h = v := by
  unfold Observable.get_value
  rw [set_value, alookup_aset_self]
  rfl

theorem set_obsEntries (ob : Observable) (env : FuncEnv) (h : HostId) (v : PyVal)
    (h' : HostId) :
    ((ob.set env h v).1).obsEntries h' = ob.obsEntries h' := by
  simp only [Observable.set]
  split
  · rw [god_snd_obsEntries]
    rfl
  · rfl

theorem set_fired (ob : Observable) (env : FuncEnv) (h : HostId) (v : PyVal)
    (hfire : ob.notify = true ∨ v ≠ ob.get_value h) :
    (ob.set env h v).2 =
      runNotify env (if ob.previous = true then [v, ob.get_value h] else [v])
        (observer_methods (ob.obsEntries h)) := by
  simp only [Observable.set]
  split
  · rw [god_fst]
    rfl
  · rename_i hq
    exact absurd hfire hq

theorem set_silent (ob : Observable) (env : FuncEnv) (h : HostId) (v : PyVal)
    (hq : ¬ (ob.notify = true ∨ v ≠ ob.get_value h)) :
    (ob.set env h v).2 = ([], Option.none) := by
  simp only [Observable.set]
  split
  · rename_i hp
    exact absurd hp hq
  · rfl

/-! ### `register` and `regOk` lemmas -/

theorem register_ok (ob : Observable) (h : HostId) (observer : PyVal)
    (hc : callable observer = true) :
    ob.register h observer = Except.ok (regOk ob h observer) := by
  unfold regOk Observable.register
  simp [hc]

theorem register_not_callable (ob : Observable) (h : HostId) (observer : PyVal)
    (hc : callable observer = false) :
    ob.register h observer =
      Except.error (RegError.valueError "observer is not callable") := by
  unfold Observable.register
  simp [hc]

theorem regOk_eq (ob : Observable) (h : HostId) (observer : PyVal)
    (hc : callable observer = true) :
    regOk ob h observer =
      { (ob.get_observers_dict h).2 with
        observers := aset (ob.get_observers_dict h).2.observers h
          (addObserverEntry (ob.get_observers_dict h).1
            (Observable.get_key_and_func observer).1
            (Observable.get_key_and_func observer).2) } := by
  unfold regOk Observable.register
  simp [hc]

theorem regOk_not_callable (ob : Observable) (h : HostId) (observer : PyVal)
    (hc : callable observer = false) : regOk ob h observer = ob := by
  unfold regOk Observable.register
  simp [hc]

theorem regOk_value (ob : Observable) (h : HostId) (observer : PyVal) :
    (regOk ob h observer).value = ob.value := by
  by_cases hc : callable observer = true
  · rw [regOk_eq _ _ _ hc]
    exact god_snd_value ob h
  · rw [regOk_not_callable _ _ _ (by simpa using hc)]

theorem regOk_get_value (ob : Observable) (h : HostId) (observer : PyVal)
    (h' : HostId) : (regOk ob h observer).get_value h' = ob.get_value h' := by
  unfold Observable.get_value
  rw [regOk_value]

theorem regOk_notify (ob : Observable) (h : HostId) (observer : PyVal) :
    (regOk ob h observer).notify = ob.notify := by
  by_cases hc : callable observer = true
  · rw [regOk_eq _ _ _ hc]
    exact god_snd_notify ob h
  · rw [regOk_not_callable _ _ _ (by simpa using hc)]

theorem regOk_previous (ob : Observable) (h : HostId) (observer : PyVal) :
    (regOk ob h observer).previous = ob.previous := by
  by_cases hc : callable observer = true
  · rw [regOk_eq _ _ _ hc]
    exact god_snd_previous ob h
  · rw [regOk_not_callable _ _ _ (by simpa using hc)]

theorem regOk_obsEntries_self (ob : Observable) (h : HostId) (observer : PyVal)
    (hc : callable observer = true) :
    (regOk ob h observer).obsEntries h =
      addObserverEntry (ob.obsEntries h) (Observable.get_key_and_func observer).1
        (Observable.get_key_and_func observer).2 := by
  rw [regOk_eq _ _ _ hc]
  unfold Observable.obsEntries
  rw [alookup_aset_self, god_fst]
  rfl

theorem regOk_obsEntries_ne (ob : Observable) (h : HostId) (observer : PyVal)
    (h' : HostId) (hne : h ≠ h') :
    (regOk ob h observer).obsEntries h' = ob.obsEntries h' := by
  by_cases hc : callable observer = true
  · rw [regOk_eq _ _ _ hc]
    unfold Observable.obsEntries
    rw [alookup_aset_ne _ _ _ _ hne]
    exact god_snd_obsEntries ob h h'
  · rw [regOk_not_callable _ _ _ (by simpa using hc)]

/-! ### `addObserverEntry` lemmas -/

theorem addObserverEntry_cons_self (k : ObsKey) (fs : List PyVal) (rest : ObsDict)
    (f : PyVal) :
    addObserverEntry ((k, fs) :: rest) k f = (k, setAdd fs f) :: rest := by
  simp [addObserverEntry, alookup, aset]

theorem addObserverEntry_cons_ne (k' : ObsKey) (fs : List PyVal) (rest : ObsDict)
    (k : ObsKey) (f : PyVal) (hk : k' ≠ k) :
    addObserverEntry ((k', fs) :: rest) k f = (k', fs) :: addObserverEntry rest k f := by
  cases hl : alookup rest k <;> simp [addObserverEntry, alookup, aset, hk, hl]

theorem mem_alookup_addObserverEntry (d : ObsDict) (k : ObsKey) (f : PyVal) :
    ∃ s, alookup (addObserverEntry d k f) k = some s ∧ f ∈ s := by
  cases hl : alookup d k with
  | some funcs =>
    refine ⟨setAdd funcs f, ?_, mem_setAdd_self _ _⟩
    simp only [addObserverEntry, hl]
    exact alookup_aset_self _ _ _
  | none =>
    refine ⟨[f], ?_, by simp⟩
    simp only [addObserverEntry, hl]
    exact alookup_aset_self _ _ _

theorem addObserverEntry_stable (d : ObsDict) (k : ObsKey) (f : PyVal)
    (s : List PyVal) (hl : alookup d k = some s) (hf : f ∈ s) :
    addObserverEntry d k f = d := by
  simp only [addObserverEntry, hl]
  rw [setAdd_mem _ _ hf]
  exact aset_eq_self _ _ _ hl

theorem regOk_of_present (ob : Observable) (h : HostId) (observer : PyVal)
    (D : ObsDict) (hc : callable observer = true)
    (hD : alookup ob.observers h = some D) :
    regOk ob h observer =
      { ob with
        observers := aset ob.observers h
          (addObserverEntry D (Observable.get_key_and_func observer).1
            (Observable.get_key_and_func observer).2) } := by
  rw [regOk_eq _ _ _ hc]
  simp [Observable.get_observers_dict, hD]

theorem regOk_idem (ob : Observable) (h : HostId) (observer : PyVal)
    (hc : callable observer = true) :
    regOk (regOk ob h observer) h observer = regOk ob h observer := by
  obtain ⟨s, hs, hfs⟩ := mem_alookup_addObserverEntry (ob.obsEntries h)
    (Observable.get_key_and_func observer).1 (Observable.get_key_and_func observer).2
  have hD : alookup (regOk ob h observer).observers h =
      some ((regOk ob h observer).obsEntries h) := by
    rw [regOk_eq _ _ _ hc]
    unfold Observable.obsEntries
    rw [alookup_aset_self]
    rfl
  have hD' : alookup (regOk ob h observer).observers h =
      some (addObserverEntry (ob.obsEntries h)
        (Observable.get_key_and_func observer).1
        (Observable.get_key_and_func observer).2) := by
    rw [hD, regOk_obsEntries_self _ _ _ hc]
  rw [regOk_of_present _ _ _ _ hc hD']
  rw [addObserverEntry_stable _ _ _ s hs hfs]
  rw [aset_eq_self _ _ _ hD']

theorem registerNTimes_succ_eq (ob : Observable) (h : HostId) (observer : PyVal)
    (hc : callable observer = true) (n : Nat) :
    registerNTimes ob h observer (n + 1) = regOk ob h observer := by
  induction n with
  | zero => rfl
  | succ n ih =>
    show regOk (registerNTimes ob h observer (n + 1)) h observer = _
    rw [ih, regOk_idem _ _ _ hc]

/-! ### `observer_methods` lemmas -/

theorem observer_methods_cons (k : ObsKey) (fs : List PyVal) (rest : ObsDict) :
    observer_methods ((k, fs) :: rest) =
      fs.map (resolveEntry k) ++ observer_methods rest := by
  simp [observer_methods]

theorem resolve_mem_observer_methods (d : ObsDict) (k : ObsKey) (f : PyVal)
    (s : List PyVal) (hl : alookup d k = some s) (hf : f ∈ s) :
    resolveEntry k f ∈ observer_methods d := by
  have hmem := alookup_mem d k s hl
  unfold observer_methods
  exact List.mem_flatMap.mpr ⟨(k, s), hmem, List.mem_map_of_mem _ hf⟩

theorem count_methods_addObserverEntry (d : ObsDict) (k : ObsKey) (f : PyVal)
    (hzero : (observer_methods d).count (resolveEntry k f) = 0) :
    (observer_methods (addObserverEntry d k f)).count (resolveEntry k f) = 1 := by
  induction d with
  | nil =>
    simp [addObserverEntry, alookup, aset, observer_methods]
  | cons p rest ih =>
    obtain ⟨k', fs⟩ := p
    by_cases hk : k' = k
    · subst hk
      rw [addObserverEntry_cons_self, observer_methods_cons]
      rw [observer_methods_cons] at hzero
      rw [List.count_append] at hzero ⊢
      have h1 : (fs.map (resolveEntry k')).count (resolveEntry k' f) = 0 := by omega
      have h2 : (observer_methods rest).count (resolveEntry k' f) = 0 := by omega
      have hnm : resolveEntry k' f ∉ fs.map (resolveEntry k') := List.count_eq_zero.mp h1
      have hf : f ∉ fs := fun hmf => hnm (List.mem_map_of_mem _ hmf)
      rw [setAdd_not_mem _ _ hf, List.map_append, List.count_append]
      simp [h1, h2]
    · rw [addObserverEntry_cons_ne _ _ _ _ _ hk, observer_methods_cons]
      rw [observer_methods_cons] at hzero
      rw [List.count_append] at hzero ⊢
      have h1 : (fs.map (resolveEntry k')).count (resolveEntry k f) = 0 := by omega
      have h2 : (observer_methods rest).count (resolveEntry k f) = 0 := by omega
      rw [ih h2, h1]

/-! ### `unregister` lemmas -/

theorem unregister_value (ob : Observable) (h : HostId) (observer : PyVal) :
    (ob.unregister h observer).value = ob.value := by
  simp only [Observable.unregister]
  split
  · exact god_snd_value ob h
  · exact god_snd_value ob h

theorem unregister_get_value (ob : Observable) (h : HostId) (observer : PyVal)
    (h' : HostId) : (ob.unregister h observer).get_value h' = ob.get_value h' := by
  unfold Observable.get_value
  rw [unregister_value]

theorem unregister_obsEntries_ne (ob : Observable) (h : HostId) (observer : PyVal)
    (h' : HostId) (hne : h ≠ h') :
    (ob.unregister h observer).obsEntries h' = ob.obsEntries h' := by
  simp only [Observable.unregister]
  split
  · exact god_snd_obsEntries ob h h'
  · unfold Observable.obsEntries
    simp only
    rw [alookup_aset_ne _ _ _ _ hne]
    exact god_snd_obsEntries ob h h'

/-! ### Concrete states and environments used by witnesses and
counterexamples -/

/-- An environment in which every function returns normally. -/
def envOk : FuncEnv := fun _ _ => Option.none

/-- An environment in which function `1` raises error `7` and every other
function returns normally. -/
def envFail1 : FuncEnv := fun f _ => if f = 1 then some (PyErr.user 7) else Option.none

/-- A change-only, no-previous slot with the standalone observer `func 0`
registered for host `0` and no value stored yet. -/
def obFirstSet : Observable :=
  ⟨false, false, [(0, [(ObsKey.observableClass, [PyVal.func 0])])], []⟩

/-- A change-only, no-previous slot with `func 0`, `func 1`, `func 2`
registered for host `0` in that order and no value stored. -/
def obThree : Observable :=
  ⟨false, false, [(0, [(ObsKey.observableClass, [PyVal.func 0, PyVal.func 1, PyVal.func 2])])], []⟩

/-- An include-previous slot with `func 0` registered for host `0` and the
value `5` already stored. -/
def obPrev : Observable :=
  ⟨false, true, [(0, [(ObsKey.observableClass, [PyVal.func 0])])], [(0, PyVal.int 5)]⟩

/-- An always-notify slot with `func 0` registered for host `0` and the
value `5` already stored. -/
def obAlways : Observable :=
  ⟨true, false, [(0, [(ObsKey.observableClass, [PyVal.func 0])])], [(0, PyVal.int 5)]⟩

/-- A change-only slot with `func 0` registered for host `0` and the value
`1` stored for host `0`; host `1` is untouched. -/
def obIso : Observable :=
  ⟨false, false, [(0, [(ObsKey.observableClass, [PyVal.func 0])])], [(0, PyVal.int 1)]⟩

/-! ### Claim theorems -/

/-- C10: `__set__` stores the new value for the host before running the
notification loop, so the resulting state maps the host to the new value
unconditionally — in particular also on the runs in which an observer
raises (where `(ob.set env h v).2.2 = some e`), so `set` is not atomic
with respect to observer failure and a `get` performed afterwards (or by
an observer during the pass, which already sees this state) returns the
new value. -/
theorem set_stores_value_before_notification (ob : Observable) (env : FuncEnv)
    (h : HostId) (v : PyVal) :
    alookup ((ob.set env h v).1).value h = some v ∧
    ((ob.set env h v).1).get_value h = v := by
  constructor
  · rw [set_value]
    exact alookup_aset_self _ _ _
  · exact set_get_value ob env h v

/-- C9: with `always_notify` set at construction time, every `set` call
runs the notification pass over all of the host's registered observers
regardless of whether the new value equals the stored one: when no
observer raises, the invocation log is exactly the host's resolved
observer list and no error is reported. -/
theorem always_notify_notifies_every_set (ob : Observable) (env : FuncEnv)
    (h : HostId) (v : PyVal) (hn : ob.notify = true)
    (hcall : ∀ m ∈ observer_methods (ob.obsEntries h),
      callMethod env m (if ob.previous = true then [v, ob.get_value h] else [v]) =
        Option.none) :
    (ob.set env h v).2.1 =
      (observer_methods (ob.obsEntries h)).map
        (fun m => (m, if ob.previous = true then [v, ob.get_value h] else [v])) ∧
    (ob.set env h v).2.2 = Option.none := by
  have hfire : ob.notify = true ∨ v ≠ ob.get_value h := Or.inl hn
  constructor
  · rw [set_fired ob env h v hfire, runNotify_all_ok _ _ _ hcall]
  · rw [set_fired ob env h v hfire, runNotify_all_ok _ _ _ hcall]

/-- C9 witness: an always-notify slot with the value `5` stored re-notifies
its observer when `5` is set again. -/
theorem always_notify_notifies_every_set_witness :
    (obAlways.set envOk 0 (PyVal.int 5)).2.1 =
      (observer_methods (obAlways.obsEntries 0)).map
        (fun m => (m, if obAlways.previous = true
          then [PyVal.int 5, obAlways.get_value 0] else [PyVal.int 5])) ∧
    (obAlways.set envOk 0 (PyVal.int 5)).2.2 = Option.none :=
  always_notify_notifies_every_set obAlways envOk 0 (PyVal.int 5) (by decide) (by decide)

/-- C7: every notification delivered by `set` carries the new value and,
exactly when `include_previous` is enabled, additionally the pre-update
stored value — which is the default `None` on a first-ever set: every
entry of the invocation log received precisely that argument list. -/
theorem include_previous_args (ob : Observable) (env : FuncEnv) (h : HostId)
    (v : PyVal) (m : PyVal) (a : List PyVal)
    (hmem : (m, a) ∈ (ob.set env h v).2.1) :
    a = if ob.previous = true then [v, ob.get_value h] else [v] := by
  by_cases hfire : ob.notify = true ∨ v ≠ ob.get_value h
  · rw [set_fired ob env h v hfire] at hmem
    exact runNotify_mem_args _ _ _ _ _ hmem
  · rw [set_silent ob env h v hfire] at hmem
    simp at hmem

/-- C7 witness: on the second of two sequential sets the observer receives
the new value `6` and the previously stored value `5`. -/
theorem include_previous_args_witness :
    [PyVal.int 6, PyVal.int 5] =
      if obPrev.previous = true then [PyVal.int 6, obPrev.get_value 0]
      else [PyVal.int 6] :=
  include_previous_args obPrev envOk 0 (PyVal.int 6) (PyVal.func 0)
    [PyVal.int 6, PyVal.int 5] (by decide)

/-- C6: if an observer raises during the notification pass of `set`, the
error value propagates to the caller of `set` unwrapped, and none of the
observers after it in the pass are invoked: the invocation log ends at the
raising observer. -/
theorem observer_failure_aborts (ob : Observable) (env : FuncEnv) (h : HostId)
    (v : PyVal) (pre : List PyVal) (m : PyVal) (post : List PyVal) (e : PyErr)
    (hfire : ob.notify = true ∨ v ≠ ob.get_value h)
    (hsplit : observer_methods (ob.obsEntries h) = pre ++ m :: post)
    (hpre : ∀ m' ∈ pre, callMethod env m'
      (if ob.previous = true then [v, ob.get_value h] else [v]) = Option.none)
    (hm : callMethod env m
      (if ob.previous = true then [v, ob.get_value h] else [v]) = some e) :
    (ob.set env h v).2.2 = some e ∧
    (ob.set env h v).2.1 =
      pre.map (fun x => (x, if ob.previous = true then [v, ob.get_value h] else [v]))
        ++ [(m, if ob.previous = true then [v, ob.get_value h] else [v])] := by
  have hrun := runNotify_fail env
    (if ob.previous = true then [v, ob.get_value h] else [v]) pre m post e hpre hm
  constructor
  · rw [set_fired ob env h v hfire, hsplit, hrun]
  · rw [set_fired ob env h v hfire, hsplit, hrun]

/-- C6 witness: of three registered observers the second raises error `7`;
the error is reported as raised and the third observer does not appear in
the invocation log. -/
theorem observer_failure_aborts_witness :
    (obThree.set envFail1 0 (PyVal.int 5)).2.2 = some (PyErr.user 7) ∧
    (obThree.set envFail1 0 (PyVal.int 5)).2.1 =
      [(PyVal.func 0, [PyVal.int 5]), (PyVal.func 1, [PyVal.int 5])] :=
  observer_failure_aborts obThree envFail1 0 (PyVal.int 5)
    [PyVal.func 0] (PyVal.func 1) [PyVal.func 2] (PyErr.user 7)
    (by decide) (by decide) (by decide) (by decide)

/-- C3 counterexample: under the default change-only policy a first-ever
`set` does not always notify — storing `None` into a host with no stored
value notifies nobody, because the absent previous value is read back as
the default `None` and compares equal: the state has a registered observer
and no stored value, yet the invocation log of the first `set` is empty. -/
theorem change_only_first_set_none_silent :
    alookup obFirstSet.value 0 = Option.none ∧
    observer_methods (obFirstSet.obsEntries 0) = [PyVal.func 0] ∧
    (obFirstSet.set envOk 0 PyVal.none).2.1 = [] := by
  refine ⟨by decide, by decide, by decide⟩

/-- C3 amended: under the default change-only policy a `set` notifies iff
the new value differs from `get_value` — the previously stored value, or
the default `None` when nothing has been stored.  A first-ever set
therefore notifies iff the value differs from `None`; in particular
`set(host, 5)` twice notifies once and `set(host, 5)` then `set(host, 6)`
notifies twice. -/
theorem change_only_notifies_iff (ob : Observable) (env : FuncEnv) (h : HostId)
    (v : PyVal) (hn : ob.notify = false)
    (hcall : ∀ m ∈ observer_methods (ob.obsEntries h),
      callMethod env m (if ob.previous = true then [v, ob.get_value h] else [v]) =
        Option.none)
    (hobs : observer_methods (ob.obsEntries h) ≠ []) :
    (ob.set env h v).2.1 ≠ [] ↔ v ≠ ob.get_value h := by
  by_cases hv : v = ob.get_value h
  · have hq : ¬ (ob.notify = true ∨ v ≠ ob.get_value h) := by
      simp [hn, hv]
    rw [set_silent ob env h v hq]
    simp [hv]
  · have hfire : ob.notify = true ∨ v ≠ ob.get_value h := Or.inr hv
    rw [set_fired ob env h v hfire, runNotify_all_ok _ _ _ hcall]
    exact ⟨fun _ => hv, fun _ hnil => hobs (List.map_eq_nil_iff.mp hnil)⟩

/-- C3 amended witness: a first-ever `set` of `5` on a fresh host notifies
(the value differs from the default `None`). -/
theorem change_only_notifies_iff_witness :
    (obFirstSet.set envOk 0 (PyVal.int 5)).2.1 ≠ [] ↔
      PyVal.int 5 ≠ obFirstSet.get_value 0 :=
  change_only_notifies_iff obFirstSet envOk 0 (PyVal.int 5)
    (by decide) (by decide) (by decide)

/-- C8: instance isolation — two distinct hosts sharing one `Observable`
definition have independent values and observer sets: a `set`, `register`
or `unregister` on host `h1` leaves host `h2`'s stored value and observer
entries unchanged, and a `set` on `h2` only ever invokes methods resolved
from `h2`'s own observer entries (so an observer registered only on `h1`
is never notified by it). -/
theorem instance_isolation (ob : Observable) (env : FuncEnv) (h1 h2 : HostId)
    (v : PyVal) (observer : PyVal) (hne : h1 ≠ h2) :
    ((ob.set env h1 v).1.get_value h2 = ob.get_value h2) ∧
    ((ob.set env h1 v).1.obsEntries h2 = ob.obsEntries h2) ∧
    ((regOk ob h1 observer).get_value h2 = ob.get_value h2) ∧
    ((regOk ob h1 observer).obsEntries h2 = ob.obsEntries h2) ∧
    ((ob.unregister h1 observer).get_value h2 = ob.get_value h2) ∧
    ((ob.unregister h1 observer).obsEntries h2 = ob.obsEntries h2) ∧
    (((ob.set env h2 v).2.1).all
      (fun p => decide (p.1 ∈ observer_methods (ob.obsEntries h2))) = true) := by
  refine ⟨?_, ?_, ?_, ?_, ?_, ?_, ?_⟩
  · unfold Observable.get_value
    rw [set_value, alookup_aset_ne _ _ _ _ hne]
  · exact set_obsEntries ob env h1 v h2
  · exact regOk_get_value ob h1 observer h2
  · exact regOk_obsEntries_ne ob h1 observer h2 hne
  · exact unregister_get_value ob h1 observer h2
  · exact unregister_obsEntries_ne ob h1 observer h2 hne
  · apply List.all_eq_true.mpr
    intro p hp
    by_cases hfire : ob.notify = true ∨ v ≠ ob.get_value h2
    · rw [set_fired ob env h2 v hfire] at hp
      exact decide_eq_true (runNotify_mem_method _ _ _ p.1 p.2 hp)
    · rw [set_silent ob env h2 v hfire] at hp
      simp at hp

/-- C8 witness: with host `0` holding value `1` and observer `func 0`, the
operations on host `0` leave host `1` untouched, and a `set` on host `1`
invokes only methods from host `1`'s (empty) entry list. -/
theorem instance_isolation_witness :
    ((obIso.set envOk 0 (PyVal.int 5)).1.get_value 1 = obIso.get_value 1) ∧
    ((obIso.set envOk 0 (PyVal.int 5)).1.obsEntries 1 = obIso.obsEntries 1) ∧
    ((regOk obIso 0 (PyVal.func 3)).get_value 1 = obIso.get_value 1) ∧
    ((regOk obIso 0 (PyVal.func 3)).obsEntries 1 = obIso.obsEntries 1) ∧
    ((obIso.unregister 0 (PyVal.func 3)).get_value 1 = obIso.get_value 1) ∧
    ((obIso.unregister 0 (PyVal.func 3)).obsEntries 1 = obIso.obsEntries 1) ∧
    (((obIso.set envOk 1 (PyVal.int 5)).2.1).all
      (fun p => decide (p.1 ∈ observer_methods (obIso.obsEntries 1))) = true) :=
  instance_isolation obIso envOk 0 1 (PyVal.int 5) (PyVal.func 3) (by decide)

/-- C5: registration is validated eagerly, at registration time: the
registration call itself fails — before any `set` or notification is
involved — exactly when the supplied target/selector combination is not
callable: with no selector iff the target itself is not callable
(`register`'s `ValueError`), and with a selector iff the target has no
member of that name whose access yields a callable (a missing member
raises at the access site; a non-callable member is rejected by
`register`'s eager check). -/
theorem register_invalid_observer_iff (ob : Observable) (h : HostId)
    (target : PyVal) (selector : Option String) (attrs : Attrs) :
    regFailed (ob.registerSel h target selector attrs) = true ↔
      (selector = Option.none ∧ callable target = false) ∨
      (∃ n, selector = some n ∧ hasCallableMember attrs target n = false) := by
  cases selector with
  | none =>
    simp only [Observable.registerSel]
    by_cases hc : callable target = false
    · rw [register_not_callable _ _ _ hc]
      simp [regFailed, hc]
    · have hc' : callable target = true := by simpa using hc
      rw [register_ok _ _ _ hc']
      simp [regFailed, hc']
  | some name =>
    cases hg : getattrVal attrs target name with
    | none =>
      simp [Observable.registerSel, regFailed, hasCallableMember, hg]
    | some member =>
      have hsel : ob.registerSel h target (some name) attrs = ob.register h member := by
        simp [Observable.registerSel, hg]
      rw [hsel]
      by_cases hc : callable member = false
      · rw [register_not_callable _ _ _ hc]
        simp [regFailed, hasCallableMember, hg, hc]
      · have hc' : callable member = true := by simpa using hc
        rw [register_ok _ _ _ hc']
        simp [regFailed, hasCallableMember, hg, hc']

/-- C2 counterexample: `unregister` on a pair that was never registered
does not always leave the observable's state unchanged — when the host has
no registrations at all, `get_observers_dict` files a fresh empty inner
dict for that host, so the `observers` map differs afterwards. -/
theorem unregister_absent_host_mutates :
    (Observable.init false false).unregister 0 (PyVal.func 0) ≠
      Observable.init false false := by
  decide

/-- C2 amended: unregistering a pair that is not currently registered never
raises (`unregister` is total) and — on API-reachable states, whose inner
observer sets are never empty — leaves the state literally unchanged when
the host has a registration entry; when the host has no entry at all, the
only change is the creation of an empty registration entry for that host,
which is observationally identical (every host's observer entries and
every stored value are unchanged). -/
theorem unregister_absent_pair (ob : Observable) (h : HostId) (observer : PyVal)
    (hwf : wellFormed ob = true)
    (habs : registeredPair ob h observer = false) :
    ob.unregister h observer =
      match alookup ob.observers h with
      | some _ => ob
      | Option.none => { ob with observers := aset ob.observers h [] } := by
  cases hh : alookup ob.observers h with
  | none =>
    simp [Observable.unregister, Observable.get_observers_dict, hh, alookup]
  | some d =>
    have hp : ob.get_observers_dict h = (d, ob) := by
      simp [Observable.get_observers_dict, hh]
    simp only [Observable.unregister, hp]
    cases hk : alookup d (Observable.get_key_and_func observer).1 with
    | none => simp
    | some funcs =>
      have hob : ob.obsEntries h = d := by
        unfold Observable.obsEntries
        rw [hh]
        rfl
      have hmemf : (Observable.get_key_and_func observer).2 ∉ funcs := by
        unfold registeredPair at habs
        rw [hob, hk] at habs
        simpa using habs
      have hfilter := filter_ne_eq_self funcs (Observable.get_key_and_func observer).2 hmemf
      have hne : funcs ≠ [] := by
        have hm1 := alookup_mem _ _ _ hh
        have hm2 := alookup_mem _ _ _ hk
        have ha1 := (List.all_eq_true.mp hwf) _ hm1
        have ha2 := (List.all_eq_true.mp ha1) _ hm2
        simpa using ha2
      simp only [hfilter, if_neg hne]
      rw [aset_eq_self _ _ _ hk, aset_eq_self _ _ _ hh]

/-- C2 amended witness: unregistering the never-registered `func 0` from a
host that has an entry (holding only `func 1`) returns the state
unchanged. -/
theorem unregister_absent_pair_witness :
    (⟨false, false, [(0, [(ObsKey.observableClass, [PyVal.func 1])])], []⟩ :
        Observable).unregister 0 (PyVal.func 0) =
      match alookup (⟨false, false, [(0, [(ObsKey.observableClass, [PyVal.func 1])])],
          []⟩ : Observable).observers 0 with
      | some _ => (⟨false, false, [(0, [(ObsKey.observableClass, [PyVal.func 1])])],
          []⟩ : Observable)
      | Option.none => { (⟨false, false, [(0, [(ObsKey.observableClass,
          [PyVal.func 1])])], []⟩ : Observable) with
          observers := aset (⟨false, false, [(0, [(ObsKey.observableClass,
            [PyVal.func 1])])], []⟩ : Observable).observers 0 [] } :=
  unregister_absent_pair
    (⟨false, false, [(0, [(ObsKey.observableClass, [PyVal.func 1])])], []⟩ :
      Observable) 0 (PyVal.func 0) (by decide) (by decide)

/-- The class attribute table in which owner `5` binds the name `m` to
function `1`. -/
def attrsOld : Attrs := [((5, "m"), PyVal.func 1)]

/-- The class attribute table of the same owner after `m` has been replaced
by the different function `2`. -/
def attrsNew : Attrs := [((5, "m"), PyVal.func 2)]

/-- The state after registering owner `5`'s method `m` for host `0` on a
default-flags slot, the access having happened while the table bound `m`
to function `1`. -/
def obBound : Observable :=
  ⟨false, false, [(0, [(ObsKey.objKey 5, [PyVal.func 1])])], []⟩

/-- C1 counterexample: selector resolution is not fresh.  Registering owner
`5`'s method `m` (bound to function `1` at registration time) and then
replacing `m` with function `2` — so that a fresh access now yields the
bound method of function `2` — still makes the next notification invoke
the bound method of the *old* function `1`, not the new callable. -/
theorem selector_resolution_not_fresh :
    (Observable.init false false).registerSel 0 (PyVal.obj 5) (some "m") attrsOld =
      Except.ok obBound ∧
    getattrVal attrsNew (PyVal.obj 5) "m" = some (PyVal.boundMethod 5 2) ∧
    (obBound.set envOk 0 (PyVal.int 7)).2.1 =
      [(PyVal.boundMethod 5 1, [PyVal.int 7])] ∧
    (obBound.set envOk 0 (PyVal.int 7)).2.1 ≠
      [(PyVal.boundMethod 5 2, [PyVal.int 7])] := by
  refine ⟨by rfl, by decide, by decide, by decide⟩

/-- C1 amended/actual behaviour: the callable invoked at notification time
is the function object captured at registration (`__func__`), freshly
re-bound to the stored owner by the descriptor protocol at call time; the
owner's current attribute table plays no part (none appears below), so
replacing the owner's method after registration leaves notifications
invoking the originally captured function. -/
theorem notification_binds_registered_func (ob : Observable) (env : FuncEnv)
    (h : HostId) (owner : ObjId) (f : FuncId) (v : PyVal)
    (hreg : registeredPair ob h (PyVal.boundMethod owner f) = true)
    (hfire : ob.notify = true ∨ v ≠ ob.get_value h)
    (hcall : ∀ m ∈ observer_methods (ob.obsEntries h),
      callMethod env m (if ob.previous = true then [v, ob.get_value h] else [v]) =
        Option.none) :
    (PyVal.boundMethod owner f,
      if ob.previous = true then [v, ob.get_value h] else [v]) ∈
      (ob.set env h v).2.1 := by
  unfold registeredPair at hreg
  cases hk : alookup (ob.obsEntries h)
      (Observable.get_key_and_func (PyVal.boundMethod owner f)).1 with
  | none =>
    rw [hk] at hreg
    simp at hreg
  | some funcs =>
    rw [hk] at hreg
    have hf : (Observable.get_key_and_func (PyVal.boundMethod owner f)).2 ∈ funcs := by
      simpa using hreg
    have hmem := resolve_mem_observer_methods _ _ _ _ hk hf
    rw [set_fired ob env h v hfire, runNotify_all_ok _ _ _ hcall]
    exact List.mem_map_of_mem _ hmem

/-- C1 amended witness: with the bound method of owner `5` and function `1`
registered, a notifying `set` invokes exactly that re-bound pairing. -/
theorem notification_binds_registered_func_witness :
    (PyVal.boundMethod 5 1, [PyVal.int 7]) ∈ (obBound.set envOk 0 (PyVal.int 7)).2.1 :=
  notification_binds_registered_func obBound envOk 0 5 1 (PyVal.int 7)
    (by decide) (by decide) (by decide)

/-- The state after registering owner `5`'s method `m` twice for host `0`
with the method having been replaced (function `1`, then function `2`)
between the two registrations. -/
def obBoundTwice : Observable :=
  ⟨false, false, [(0, [(ObsKey.objKey 5, [PyVal.func 1, PyVal.func 2])])], []⟩

/-- C4 counterexample: deduplication is keyed by the underlying function
object, not by (target identity, selector).  Registering the member named
`m` of owner `5` twice — same target identity, same selector, but the
method replaced in between — produces two stored entries, and one `set`
notifies that "same observer pair" twice, where the claim's identity rule
demands exactly one entry and one notification. -/
theorem register_same_selector_not_idempotent :
    (Observable.init false false).registerSel 0 (PyVal.obj 5) (some "m") attrsOld =
      Except.ok obBound ∧
    obBound.registerSel 0 (PyVal.obj 5) (some "m") attrsNew =
      Except.ok obBoundTwice ∧
    (obBoundTwice.set envOk 0 (PyVal.int 7)).2.1 =
      [(PyVal.boundMethod 5 1, [PyVal.int 7]),
        (PyVal.boundMethod 5 2, [PyVal.int 7])] ∧
    ((obBoundTwice.set envOk 0 (PyVal.int 7)).2.1).length = 2 := by
  refine ⟨by rfl, by rfl, by decide, by decide⟩

/-- C4 amended/actual rule: registration is idempotent under identity of
the `(__self__, __func__)` decomposition — for bound methods the owner
identity together with the underlying function object (so fresh wrapper
objects of the same unchanged method, which share both, do collapse), and
for standalone callables the callable's own identity.  Registering such an
observer N ≥ 1 times yields the same state as registering it once, and a
notifying `set` then invokes that observer exactly once, not N times. -/
theorem register_idempotent_one_notification (ob : Observable) (env : FuncEnv)
    (h : HostId) (observer : PyVal) (v : PyVal) (n : Nat)
    (hc : callable observer = true)
    (hzero : (observer_methods (ob.obsEntries h)).count (resolveObserver observer) = 0)
    (hfire : ob.notify = true ∨ v ≠ ob.get_value h)
    (hcall : ∀ m ∈ observer_methods ((regOk ob h observer).obsEntries h),
      callMethod env m (if ob.previous = true then [v, ob.get_value h] else [v]) =
        Option.none) :
    registerNTimes ob h observer (n + 1) = regOk ob h observer ∧
    (((registerNTimes ob h observer (n + 1)).set env h v).2.1.map Prod.fst).count
      (resolveObserver observer) = 1 := by
  have hN := registerNTimes_succ_eq ob h observer hc n
  refine ⟨hN, ?_⟩
  rw [hN]
  have hfire' : (regOk ob h observer).notify = true ∨
      v ≠ (regOk ob h observer).get_value h := by
    rw [regOk_notify, regOk_get_value]
    exact hfire
  rw [set_fired _ env h v hfire']
  rw [regOk_previous, regOk_get_value]
  rw [runNotify_all_ok _ _ _ hcall]
  simp only [List.map_map]
  rw [show (Prod.fst ∘ fun m =>
      (m, if ob.previous = true then [v, ob.get_value h] else [v])) = id from rfl]
  rw [List.map_id]
  rw [regOk_obsEntries_self _ _ _ hc]
  exact count_methods_addObserverEntry _ _ _ hzero

/-- C4 amended witness: registering the bound method of owner `5` and
function `1` twice on a fresh slot equals registering it once, and the
subsequent first `set` invokes it exactly once. -/
theorem register_idempotent_one_notification_witness :
    registerNTimes (Observable.init false false) 0 (PyVal.boundMethod 5 1) 2 =
      regOk (Observable.init false false) 0 (PyVal.boundMethod 5 1) ∧
    (((registerNTimes (Observable.init false false) 0
        (PyVal.boundMethod 5 1) 2).set envOk 0 (PyVal.int 7)).2.1.map
          Prod.fst).count (resolveObserver (PyVal.boundMethod 5 1)) = 1 :=
  register_idempotent_one_notification (Observable.init false false) envOk 0
    (PyVal.boundMethod 5 1) (PyVal.int 7) 1 (by decide) (by decide) (by decide)
    (by decide)
